import Mathlib

/-!
Verification development for a pair of browser 3D-model viewers:
a desktop orbit viewer (`src/index.js`) and a WebXR augmented-reality
viewer (`src/workshop/app.js`).  The mutable module-level / instance
state of each viewer is embedded as an explicit state record, every
event handler and the frame tick become pure state-transition
functions, and JavaScript numbers are modelled as exact rationals.
-/

namespace Viewer

/-- Model of `THREE.Vector2` (only the fields the source reads/writes). -/
structure Vec2 where
  x : ℚ
  y : ℚ
deriving DecidableEq, Repr

/-- Model of `THREE.Vector3` (only the fields the source reads/writes). -/
structure Vec3 where
  x : ℚ
  y : ℚ
  z : ℚ
deriving DecidableEq, Repr

/-- Negation of a vector, modelling `v.multiplyScalar(-1)`. -/
def vneg (v : Vec3) : Vec3 := ⟨-v.x, -v.y, -v.z⟩

/-- The zero vector, modelling `v.set(0, 0, 0)`. -/
def vzero : Vec3 := ⟨0, 0, 0⟩

/-- Model of `THREE.Box3`: an axis-aligned bounding box. -/
structure Box3 where
  min : Vec3
  max : Vec3
deriving DecidableEq, Repr

/-- Model of `THREE.Box3.getCenter`: midpoint of the box extents. -/
def getCenter (b : Box3) : Vec3 :=
  ⟨(b.min.x + b.max.x) / 2, (b.min.y + b.max.y) / 2, (b.min.z + b.max.z) / 2⟩

/-- Model of `new THREE.Box3().setFromObject(obj)` for an object whose
geometry has intrinsic (unscaled, untranslated) bounding box `b`, a
uniform scale factor `k` (set via `scale.set(k, k, k)` before the call,
`k = 1` in the desktop viewer and `k = 0.1` in the AR viewer, both
positive) and position `pos`: the world-space axis-aligned box. -/
def setFromObject (b : Box3) (k : ℚ) (pos : Vec3) : Box3 :=
  ⟨⟨k * b.min.x + pos.x, k * b.min.y + pos.y, k * b.min.z + pos.z⟩,
   ⟨k * b.max.x + pos.x, k * b.max.y + pos.y, k * b.max.z + pos.z⟩⟩

/-- The centering computation common to both load callbacks
(`index.js` lines 152-154, `app.js` lines 333-335): compute the world
bounding box of the model (intrinsic box `b`, scale `k`, position
`pos`), copy its center into the position, then negate it. -/
def centerOffset (b : Box3) (k : ℚ) (pos : Vec3) : Vec3 :=
  vneg (getCenter (setFromObject b k pos))

/-! ## Desktop viewer (`src/index.js`) -/

/-- The `pivot` group of `index.js`: created on load with identity
rotation and unit scale, its single child `objModel` sitting at the
centering offset.  Only the fields the source touches are modelled. -/
structure Pivot where
  rotX : ℚ
  rotY : ℚ
  scale : Vec3
  childOffset : Vec3
deriving DecidableEq, Repr

/-- The module-level mutable state of `index.js`. -/
structure DState where
  pivot : Option Pivot
  objModel : Option Vec3
  autoRotate : Bool
  waitAutoRotate : Bool
  aRCounter : ℕ
  isMouseDown : Bool
  mouse : Vec2
  lastMouse : Vec2
  difference : Vec2
  sceneNodes : ℕ
deriving DecidableEq, Repr

/-- Constant `autoRotateTimeOut = 100` of `index.js`. -/
def autoRotateTimeOut : ℕ := 100

/-- Constant `basicScale`, set to `(1, 1, 1)` at startup and never
written afterwards. -/
def basicScale : Vec3 := ⟨1, 1, 1⟩

/-- The state right after scene bootstrap: no model, auto-rotate on,
all vectors zero; the scene holds the two lights. -/
def initState : DState :=
  { pivot := none, objModel := none, autoRotate := true, waitAutoRotate := false,
    aRCounter := 0, isMouseDown := false, mouse := ⟨0, 0⟩, lastMouse := ⟨0, 0⟩,
    difference := ⟨0, 0⟩, sceneNodes := 2 }

/-- The clamp at the end of `onMouseMove`:
`if (rotation.x > 1) rotation.x = 1; else if (rotation.x < -1) rotation.x = -1;`. -/
def clampRotX (r : ℚ) : ℚ :=
  if r > 1 then 1 else if r < -1 then -1 else r

/-- Handler `onMouseMove(event)` of `index.js` (lines 61-83).  The
event is its client coordinates; `winW`/`winH` are
`window.innerWidth` / `window.innerHeight`. -/
def onMouseMove (winW winH clientX clientY : ℚ) (s : DState) : DState :=
  if s.isMouseDown != true then s
  else match s.pivot with
  | none => s
  | some p =>
    let mx : ℚ := clientX / winW * 2 - 1
    let my : ℚ := -(clientY / winH) * 2 + 1
    let dx : ℚ := mx - s.lastMouse.x
    let dy : ℚ := my - s.lastMouse.y
    { s with mouse := ⟨mx, my⟩, lastMouse := ⟨mx, my⟩, difference := ⟨dx, dy⟩,
             pivot := some { p with rotY := p.rotY + dx * 2,
                                    rotX := clampRotX (p.rotX - dy) } }

/-- Handler `onMouseDown(event)` of `index.js` (lines 85-91). -/
def onMouseDown (winW winH clientX clientY : ℚ) (s : DState) : DState :=
  { s with isMouseDown := true,
           lastMouse := ⟨clientX / winW * 2 - 1, -(clientY / winH) * 2 + 1⟩,
           autoRotate := false, waitAutoRotate := false }

/-- Handler `onMouseUp(event)` of `index.js` (lines 93-96). -/
def onMouseUp (s : DState) : DState :=
  { s with isMouseDown := false, waitAutoRotate := true }

/-- Handler `onWheel(event)` of `index.js` (lines 98-109); `0.1` is the
rational `1/10`. -/
def onWheel (deltaY : ℚ) (s : DState) : DState :=
  match s.pivot with
  | none => s
  | some p =>
    let value : ℚ := deltaY / -1000
    let scale : ℚ := p.scale.x
    if scale + value ≤ 1/10 then s
    else { s with pivot := some { p with scale := ⟨p.scale.x + value, p.scale.y + value, p.scale.z + value⟩ } }

/-- Handler `scaleUpdate(event)` of `index.js` (lines 172-179), reading
the slider value `v`. -/
def scaleUpdate (v : ℚ) (s : DState) : DState :=
  match s.pivot with
  | none => s
  | some p =>
    let value : ℚ := v / 100
    { s with pivot := some { p with scale := ⟨basicScale.x + value, basicScale.y + value, basicScale.z + value⟩ } }

/-- First half of the frame tick `Update()` (lines 115-120): rotate the
pivot when a pivot exists and auto-rotate is on (`0.05` is `1/20`; the
`camera.lookAt` call touches no modelled state). -/
def rotateStep (s : DState) : DState :=
  match s.pivot with
  | some p => if s.autoRotate then { s with pivot := some { p with rotY := p.rotY + 1/20 } } else s
  | none => s

/-- Second half of the frame tick `Update()` (lines 122-131): the
auto-rotate re-enable counter. -/
def counterStep (s : DState) : DState :=
  if s.waitAutoRotate = false then { s with aRCounter := 0 }
  else if s.aRCounter + 1 ≥ autoRotateTimeOut then
    { s with aRCounter := s.aRCounter + 1, autoRotate := true, waitAutoRotate := false }
  else { s with aRCounter := s.aRCounter + 1 }

/-- One frame tick: the body of `Update()` of `index.js` (lines 112-134),
minus the render call, which touches no modelled state. -/
def updateTick (s : DState) : DState := counterStep (rotateStep s)

/-- A scale-changing operation of the desktop viewer: a wheel event or
a slider input event.

Modelled from the spec: the slider element itself (and hence the range
of values it can deliver) lives in the page HTML, which is not under
`src/`; per the spec the slider input maps linearly to uniform scale,
so the delivered value is modelled as an arbitrary rational. -/
inductive ScaleOp where
  | wheel (deltaY : ℚ)
  | slider (v : ℚ)
deriving DecidableEq, Repr

/-- Dispatch one scale-changing operation to its handler. -/
def applyScaleOp (s : DState) : ScaleOp → DState
  | .wheel d => onWheel d s
  | .slider v => scaleUpdate v s

/-- Process a sequence of scale-changing operations. -/
def applyScaleOps (s : DState) (l : List ScaleOp) : DState :=
  l.foldl applyScaleOp s

/-- Process a sequence of mouse-move events (client coordinates). -/
def processMoves (winW winH : ℚ) (l : List (ℚ × ℚ)) (s : DState) : DState :=
  l.foldl (fun st e => onMouseMove winW winH e.1 e.2 st) s

/-- Observation: the pivot (when loaded) has uniform scale strictly
above the minimum factor `0.1`. -/
def scaleAboveMinB (s : DState) : Bool :=
  match s.pivot with
  | some p => decide (1/10 < p.scale.x ∧ p.scale.x = p.scale.y ∧ p.scale.y = p.scale.z)
  | none => true

/-- Observation: the pivot (when loaded) has `rotation.x` within
`[-1, 1]`. -/
def rotXInvB (s : DState) : Bool :=
  match s.pivot with
  | some p => decide (-1 ≤ p.rotX ∧ p.rotX ≤ 1)
  | none => true

/-! ### Desktop model load flow (`GetURLParameter`, lines 138-167) -/

/-- JavaScript `String.prototype.split` with a one-character separator,
on strings embedded as character lists (`"".split(sep)` is `[""]`). -/
def jsSplit (sep : Char) : List Char → List (List Char)
  | [] => [[]]
  | c :: rest =>
    let r := jsSplit sep rest
    if c = sep then [] :: r
    else match r with
      | [] => [[c]]
      | h :: t => (c :: h) :: t

/-- Element `l[1]` of a JavaScript array as an option (`undefined`
becomes `none`). -/
def listGet1 {α : Type} : List α → Option α
  | _ :: b :: _ => some b
  | _ => none

/-- The query-string scan of `GetURLParameter` (lines 140-144): split
the search string on `&`, keep the components whose first `=`-field
equals `sParam`, and return each one's second `=`-field (the URL
passed to the loader). -/
def paramOccurrences (search1 sParam : List Char) : List (Option (List Char)) :=
  ((jsSplit '&' search1).filter (fun v => (jsSplit '=' v).headD [] = sParam)).map
    (fun v => listGet1 (jsSplit '=' v))

/-- Outcome of one `gltfLoader.load` call: the success callback with the
loaded asset (represented by its intrinsic bounding box) or the error
callback with a message. -/
inductive LoadResult where
  | success (box : Box3)
  | failure (err : List Char)
deriving DecidableEq, Repr

/-- Whether a load outcome is the error callback. -/
def LoadResult.isFailure : LoadResult → Bool
  | .failure _ => true
  | .success _ => false

/-- The console output of a load outcome (`console.error(error)` on
failure, nothing on success). -/
def LoadResult.errMsg : LoadResult → List (List Char)
  | .failure e => [e]
  | .success _ => []

/-- The success callback of the desktop loader (lines 145-159):
`scale.set(1,1,1)`, `position.set(0,0,0)`, compute the bounding box,
center, negate; then create the pivot group, add it to the scene and
parent the model under it. -/
def modelLoadedDesktop (box : Box3) (s : DState) : DState :=
  let offset := centerOffset box 1 vzero
  { s with objModel := some offset,
           pivot := some { rotX := 0, rotY := 0, scale := ⟨1, 1, 1⟩, childOffset := offset },
           sceneNodes := s.sceneNodes + 1 }

/-- Apply one load outcome to the viewer state, accumulating console
logs. -/
def applyLoadResult (acc : DState × List (List Char)) (r : LoadResult) : DState × List (List Char) :=
  match r with
  | .success box => (modelLoadedDesktop box acc.1, acc.2)
  | .failure e => (acc.1, acc.2 ++ [e])

/-- `GetURLParameter(sParam)` of `index.js` (lines 138-166) together
with the completion of every load it fires: `search1` is
`window.location.search.substring(1)` and `outcome` gives each fired
load's result.  Returns the final state and the console log. -/
def getURLParameterD (sParam search1 : List Char) (outcome : Option (List Char) → LoadResult)
    (s : DState) : DState × List (List Char) :=
  (paramOccurrences search1 sParam).foldl (fun acc u => applyLoadResult acc (outcome u)) (s, [])

/-- The characters of the string literal `"model"`. -/
def modelParamName : List Char := ['m', 'o', 'd', 'e', 'l']

/-! ## AR viewer (`src/workshop/app.js`) -/

/-- The `this.object` group of `app.js`: created on load with identity
transform, its single child `objModel` sitting at the centering
offset. -/
structure ARObject where
  position : Vec3
  rotY : ℚ
  scale : Vec3
  childOffset : Vec3
deriving DecidableEq, Repr

/-- The per-session mutable state of the `App` class of `app.js`,
together with the `window.sunflower` global its `onSelect` handler
reads (modelled by its truthiness). -/
structure ARState where
  sunflower : Bool
  object : Option ARObject
  objModel : Option Vec3
  isObjectSpawned : Bool
  reticlePlaced : Bool
  stabilized : Bool
  touched : Bool
  lastTouch : Vec2
  lastScaleDifference : ℚ
  reticlePos : Vec3
  reticleVisible : Bool
  reticleInScene : Bool
  objectInScene : Bool
  cameraMatrix : List ℚ
  cameraProjection : List ℚ
  rendererW : ℚ
  rendererH : ℚ
deriving DecidableEq, Repr

/-- Handler `onSelect` of `app.js` (lines 194-210).  The result is
`Except.error` when the handler throws: dereferencing
`this.object.position` with `this.object` undefined is a `TypeError`,
and the error payload is the state at the throw (the reticle has
already been removed from the scene by then). -/
def onSelect (s : ARState) : Except ARState ARState :=
  if s.sunflower then
    if s.isObjectSpawned || !s.reticlePlaced then .ok s
    else
      let s1 := { s with reticleInScene := false }
      match s1.object with
      | none => .error s1
      | some o =>
        .ok { s1 with object := some { o with position := s1.reticlePos },
                      objectInScene := true, isObjectSpawned := true }
  else .ok s

/-- One view of the device pose, as read by `onXRFrame`: the transform
and projection matrices (uninterpreted number arrays) and the viewport. -/
structure XRViewData where
  transformMatrix : List ℚ
  projectionMatrix : List ℚ
  viewportW : ℚ
  viewportH : ℚ
deriving DecidableEq, Repr

/-- The data `onXRFrame` queries from an `XRFrame`: the viewer pose
(absent while tracking is not established) and the hit-test results
(each represented by its pose's position in the local space). -/
structure XRFrameData where
  pose : Option XRViewData
  hits : List Vec3
deriving DecidableEq, Repr

/-- The effects of one frame callback that are not state updates:
re-arming the next callback, binding the framebuffer, and rendering. -/
structure FrameEffects where
  requestedNextFrame : Bool
  boundFramebuffer : Bool
  rendered : Bool
deriving DecidableEq, Repr

/-- Handler `onXRFrame` of `app.js` (lines 116-161). -/
def onXRFrame (s : ARState) (f : XRFrameData) : ARState × FrameEffects :=
  match f.pose with
  | none => (s, ⟨true, true, false⟩)
  | some view =>
    let s1 := { s with rendererW := view.viewportW, rendererH := view.viewportH,
                       cameraMatrix := view.transformMatrix,
                       cameraProjection := view.projectionMatrix }
    let s2 := if !s1.stabilized && !f.hits.isEmpty then { s1 with stabilized := true } else s1
    let s3 := match f.hits with
      | [] => s2
      | h :: _ => { s2 with reticlePlaced := true, reticleVisible := true, reticlePos := h }
    (s3, ⟨true, true, true⟩)

/-- The success callback `modelLoaded` of `app.js` (lines 327-339):
`scale.set(0.1, 0.1, 0.1)`, `position.set(0,0,0)`, compute the bounding
box, center, negate; then create the group and hold it in
`this.object` without adding it to the scene. -/
def modelLoadedAR (box : Box3) (s : ARState) : ARState :=
  let offset := centerOffset box (1/10) vzero
  { s with objModel := some offset,
           object := some { position := vzero, rotY := 0, scale := ⟨1, 1, 1⟩, childOffset := offset } }

/-! ## Concrete states and auxiliary predicates used by the theorems -/

/-- Constraint on a scale-changing operation under which the minimum
scale invariant survives: wheel events are unrestricted, slider values
must exceed `-90` (so that `1 + v/100 > 0.1`). -/
def sliderOpOK : ScaleOp → Bool
  | .wheel _ => true
  | .slider v => decide (-90 < v)

/-- A pivot as published by the desktop load callback for a model
centered at the origin. -/
def pivot0 : Pivot := { rotX := 0, rotY := 0, scale := ⟨1, 1, 1⟩, childOffset := ⟨0, 0, 0⟩ }

/-- Desktop state with a loaded pivot at uniform scale `1`. -/
def loadedState : DState := { initState with pivot := some pivot0 }

/-- Desktop state with a loaded pivot while dragging. -/
def dragState : DState := { loadedState with isMouseDown := true }

/-- Desktop state with the pending re-enable flag set and the counter
at `0`. -/
def pendingState : DState := { initState with autoRotate := false, waitAutoRotate := true }

/-- Desktop state with the pending re-enable flag set and the counter
already at `99`. -/
def pending99State : DState := { pendingState with aRCounter := 99 }

/-- A loader outcome function that always invokes the error callback. -/
def ocFail : Option (List Char) → LoadResult := fun _ => .failure ['e', 'r', 'r']

/-- A loaded AR object sitting at the origin. -/
def objDemo : ARObject := { position := ⟨0, 0, 0⟩, rotY := 0, scale := ⟨1, 1, 1⟩, childOffset := ⟨0, 0, 0⟩ }

/-- AR session state with a loaded object, a recorded reticle pose and
no spawn yet, but with the `window.sunflower` global falsy. -/
def noSunflowerState : ARState :=
  { sunflower := false, object := some objDemo, objModel := some ⟨0, 0, 0⟩,
    isObjectSpawned := false, reticlePlaced := true, stabilized := true,
    touched := false, lastTouch := ⟨0, 0⟩, lastScaleDifference := 0,
    reticlePos := ⟨1, 2, 3⟩, reticleVisible := true, reticleInScene := true,
    objectInScene := false, cameraMatrix := [], cameraProjection := [],
    rendererW := 0, rendererH := 0 }

/-- AR session state ready for a first placement (`window.sunflower`
truthy). -/
def readyState : ARState := { noSunflowerState with sunflower := true }

/-- AR session state with `window.sunflower` truthy and a recorded
reticle pose, but the user model not yet loaded. -/
def noObjectState : ARState := { readyState with object := none }

/-! ## Helper lemmas: the auto-rotate scheduler -/

/-- The rotation half of the frame tick never touches the scheduler
fields. -/
lemma rotateStep_flags (s : DState) :
    (rotateStep s).autoRotate = s.autoRotate
    ∧ (rotateStep s).waitAutoRotate = s.waitAutoRotate
    ∧ (rotateStep s).aRCounter = s.aRCounter := by
  unfold rotateStep
  rcases s.pivot with _ | p
  · exact ⟨rfl, rfl, rfl⟩
  · by_cases h : s.autoRotate = true <;> simp [h]

/-- With auto-rotate off the rotation half of the tick is the
identity. -/
lemma rotateStep_id (s : DState) (h : s.autoRotate = false) : rotateStep s = s := by
  unfold rotateStep
  rcases s.pivot with _ | p
  · rfl
  · rw [h]
    rfl

/-- A tick with the pending flag set and the counter still below the
threshold only increments the counter. -/
lemma tick_pending_step (s : DState) (h1 : s.autoRotate = false)
    (h2 : s.waitAutoRotate = true) (h3 : s.aRCounter + 1 < autoRotateTimeOut) :
    updateTick s = { s with aRCounter := s.aRCounter + 1 } := by
  unfold updateTick
  rw [rotateStep_id s h1]
  unfold counterStep
  rw [h2]
  simp [Nat.not_le_of_lt h3]

/-- Running `k ≤ 99` ticks from a pending state with counter `0` just
counts up to `k`. -/
lemma counter_run (s : DState) (h1 : s.autoRotate = false)
    (h2 : s.waitAutoRotate = true) (h3 : s.aRCounter = 0) :
    ∀ k, k ≤ 99 → updateTick^[k] s = { s with aRCounter := k } := by
  intro k
  induction k with
  | zero =>
    intro _
    rw [Function.iterate_zero_apply, ← h3]
  | succ n ih =>
    intro hk
    have hn : n ≤ 99 := by omega
    rw [Function.iterate_succ_apply', ih hn]
    have e3 : ({ s with aRCounter := n } : DState).aRCounter + 1 < autoRotateTimeOut := by
      show n + 1 < autoRotateTimeOut
      unfold autoRotateTimeOut
      omega
    rw [tick_pending_step { s with aRCounter := n } h1 h2 e3]

/-- The 100th tick from a pending state with counter `0` re-enables
auto-rotate and clears the pending flag. -/
lemma counter_run_100 (s : DState) (h1 : s.autoRotate = false)
    (h2 : s.waitAutoRotate = true) (h3 : s.aRCounter = 0) :
    updateTick^[100] s
      = { s with aRCounter := 100, autoRotate := true, waitAutoRotate := false } := by
  have h99 := counter_run s h1 h2 h3 99 (by omega)
  have : (100 : ℕ) = 99 + 1 := rfl
  rw [this, Function.iterate_succ_apply', h99]
  unfold updateTick
  rw [rotateStep_id { s with aRCounter := 99 } h1]
  unfold counterStep
  rw [h2]
  simp [autoRotateTimeOut]

/-- A tick with the pending flag clear zeroes the counter and changes
no scheduler flag. -/
lemma tick_idle (s : DState) (h1 : s.autoRotate = false) (h2 : s.waitAutoRotate = false) :
    updateTick s = { s with aRCounter := 0 } := by
  unfold updateTick
  rw [rotateStep_id s h1]
  unfold counterStep
  rw [h2]
  simp

/-- Any positive number of ticks in the idle (dragging) regime leaves
the state unchanged except for a zeroed counter. -/
lemma ticks_idle (s : DState) (h1 : s.autoRotate = false) (h2 : s.waitAutoRotate = false) :
    ∀ n, 1 ≤ n → updateTick^[n] s = { s with aRCounter := 0 } := by
  intro n hn
  induction n with
  | zero => omega
  | succ m ih =>
    rcases Nat.lt_or_ge m 1 with hm | hm
    · have : m = 0 := by omega
      subst this
      rw [Function.iterate_one]
      exact tick_idle s h1 h2
    · rw [Function.iterate_succ_apply', ih hm]
      exact tick_idle { s with aRCounter := 0 } h1 h2

/-- A tick from any state with the pending flag clear zeroes the
counter (regardless of the auto-rotate flag). -/
lemma tick_counter_zero (s : DState) (h : s.waitAutoRotate = false) :
    (updateTick s).aRCounter = 0 := by
  unfold updateTick counterStep
  rw [(rotateStep_flags s).2.1, h]
  simp

/-! ## Claim theorems -/

/-- Claim C2: in the desktop viewer, starting from a state where the
pending re-enable flag is set, auto-rotate is disabled and the frame
counter is `0`, running 100 consecutive frame ticks with no intervening
pointer-down makes the auto-rotate flag transition from `false` to
`true` exactly once, on the 100th frame, and clears the pending flag:
for every `k ≤ 99` the flag is still `false` (and the counter is `k`),
and after the 100th tick it is `true` with the pending flag clear. -/
theorem autorotate_reenables_on_frame_100 (s : DState)
    (h1 : s.autoRotate = false) (h2 : s.waitAutoRotate = true) (h3 : s.aRCounter = 0) :
    (∀ k, k ≤ 99 → (updateTick^[k] s).autoRotate = false
      ∧ (updateTick^[k] s).waitAutoRotate = true
      ∧ (updateTick^[k] s).aRCounter = k)
    ∧ (updateTick^[100] s).autoRotate = true
    ∧ (updateTick^[100] s).waitAutoRotate = false
    ∧ (updateTick^[100] s).aRCounter = 100 := by
  refine ⟨fun k hk => ?_, ?_, ?_, ?_⟩
  · rw [counter_run s h1 h2 h3 k hk]
    exact ⟨h1, h2, rfl⟩
  all_goals rw [counter_run_100 s h1 h2 h3]

/-- Claim C2 witness: the theorem applied to a concrete pending state. -/
theorem autorotate_reenables_on_frame_100_witness :
    (updateTick^[99] pendingState).autoRotate = false
    ∧ (updateTick^[100] pendingState).autoRotate = true
    ∧ (updateTick^[100] pendingState).waitAutoRotate = false :=
  ⟨((autorotate_reenables_on_frame_100 pendingState rfl rfl rfl).1 99 (by decide)).1,
   (autorotate_reenables_on_frame_100 pendingState rfl rfl rfl).2.1,
   (autorotate_reenables_on_frame_100 pendingState rfl rfl rfl).2.2.1⟩

/-- Claim C7 counterexample: `onMouseDown` does not touch `aRCounter`
(here it stays `99`, not `0`), and in the interleaving pointer-down,
pointer-up, frame tick (no tick between down and up) the stale counter
makes auto-rotate re-enable on the very first tick after the
pointer-up, not 100 frames after it. -/
theorem pointerdown_counter_reset_cex :
    (onMouseDown 100 100 0 0 pending99State).aRCounter = 99
    ∧ (updateTick (onMouseUp (onMouseDown 100 100 0 0 pending99State))).autoRotate = true := by
  decide

/-- Claim C7 amended: a pointer-down immediately disables auto-rotate
and clears the pending re-enable flag but leaves the frame counter
unchanged; the counter is zeroed by the next frame tick processed while
the pending flag is clear; consequently, when at least one frame tick
occurs between the pointer-down and the following pointer-up,
auto-rotate re-enables exactly 100 frames after that pointer-up. -/
theorem pointerdown_disables_autorotate_amended (winW winH cx cy : ℚ) (s : DState)
    (n : ℕ) (hn : 1 ≤ n) :
    ((onMouseDown winW winH cx cy s).autoRotate = false
      ∧ (onMouseDown winW winH cx cy s).waitAutoRotate = false
      ∧ (onMouseDown winW winH cx cy s).aRCounter = s.aRCounter)
    ∧ (s.waitAutoRotate = false → (updateTick s).aRCounter = 0)
    ∧ (∀ k, k ≤ 99 →
        (updateTick^[k] (onMouseUp (updateTick^[n] (onMouseDown winW winH cx cy s)))).autoRotate = false
        ∧ (updateTick^[k] (onMouseUp (updateTick^[n] (onMouseDown winW winH cx cy s)))).waitAutoRotate = true
        ∧ (updateTick^[k] (onMouseUp (updateTick^[n] (onMouseDown winW winH cx cy s)))).aRCounter = k)
    ∧ (updateTick^[100] (onMouseUp (updateTick^[n] (onMouseDown winW winH cx cy s)))).autoRotate = true
    ∧ (updateTick^[100] (onMouseUp (updateTick^[n] (onMouseDown winW winH cx cy s)))).waitAutoRotate = false := by
  have hd : updateTick^[n] (onMouseDown winW winH cx cy s)
      = { onMouseDown winW winH cx cy s with aRCounter := 0 } :=
    ticks_idle (onMouseDown winW winH cx cy s) rfl rfl n hn
  refine ⟨⟨rfl, rfl, rfl⟩, fun h => tick_counter_zero s h, fun k hk => ?_, ?_, ?_⟩
  · rw [hd, counter_run (onMouseUp { onMouseDown winW winH cx cy s with aRCounter := 0 }) rfl rfl rfl k hk]
    exact ⟨rfl, rfl, rfl⟩
  all_goals rw [hd, counter_run_100 (onMouseUp { onMouseDown winW winH cx cy s with aRCounter := 0 }) rfl rfl rfl]

/-- Claim C7 amended witness: the amended theorem applied to the
startup state with one frame tick between pointer-down and
pointer-up. -/
theorem pointerdown_disables_autorotate_amended_witness :
    (onMouseDown 100 100 0 0 initState).autoRotate = false
    ∧ (updateTick^[100] (onMouseUp (updateTick^[1] (onMouseDown 100 100 0 0 initState)))).autoRotate = true :=
  ⟨(pointerdown_disables_autorotate_amended 100 100 0 0 initState 1 (by decide)).1.1,
   (pointerdown_disables_autorotate_amended 100 100 0 0 initState 1 (by decide)).2.2.2.1⟩

/-- Equation lemma: the scale observation with a loaded pivot. -/
lemma scaleAboveMinB_some (s : DState) (p : Pivot) (h : s.pivot = some p) :
    scaleAboveMinB s
      = decide (1/10 < p.scale.x ∧ p.scale.x = p.scale.y ∧ p.scale.y = p.scale.z) := by
  unfold scaleAboveMinB
  rw [h]

/-- Equation lemma: the rotation observation with a loaded pivot. -/
lemma rotXInvB_some (s : DState) (p : Pivot) (h : s.pivot = some p) :
    rotXInvB s = decide (-1 ≤ p.rotX ∧ p.rotX ≤ 1) := by
  unfold rotXInvB
  rw [h]

/-- Equation lemma: `onWheel` without a loaded pivot. -/
lemma onWheel_none (d : ℚ) (s : DState) (h : s.pivot = none) : onWheel d s = s := by
  unfold onWheel
  rw [h]

/-- Equation lemma: `onWheel` with a loaded pivot. -/
lemma onWheel_some (d : ℚ) (s : DState) (p : Pivot) (h : s.pivot = some p) :
    onWheel d s
      = if p.scale.x + d / -1000 ≤ 1/10 then s
        else { s with pivot := some { p with
          scale := ⟨p.scale.x + d / -1000, p.scale.y + d / -1000, p.scale.z + d / -1000⟩ } } := by
  unfold onWheel
  rw [h]

/-- Equation lemma: `onWheel` when the guard rejects the update. -/
lemma onWheel_some_le (d : ℚ) (s : DState) (p : Pivot) (h : s.pivot = some p)
    (hg : p.scale.x + d / -1000 ≤ 1/10) : onWheel d s = s := by
  rw [onWheel_some d s p h, if_pos hg]

/-- Equation lemma: `onWheel` when the guard accepts the update. -/
lemma onWheel_some_gt (d : ℚ) (s : DState) (p : Pivot) (h : s.pivot = some p)
    (hg : ¬ p.scale.x + d / -1000 ≤ 1/10) :
    onWheel d s = { s with pivot := some { p with
      scale := ⟨p.scale.x + d / -1000, p.scale.y + d / -1000, p.scale.z + d / -1000⟩ } } := by
  rw [onWheel_some d s p h, if_neg hg]

/-- Equation lemma: `scaleUpdate` with a loaded pivot. -/
lemma scaleUpdate_some (v : ℚ) (s : DState) (p : Pivot) (h : s.pivot = some p) :
    scaleUpdate v s = { s with pivot := some { p with
      scale := ⟨basicScale.x + v / 100, basicScale.y + v / 100, basicScale.z + v / 100⟩ } } := by
  unfold scaleUpdate
  rw [h]

/-- The clamp of `onMouseMove` always lands in `[-1, 1]`. -/
lemma clampRotX_mem (r : ℚ) : -1 ≤ clampRotX r ∧ clampRotX r ≤ 1 := by
  unfold clampRotX
  split
  · constructor <;> norm_num
  · split
    · constructor <;> norm_num
    · next h h2 => exact ⟨le_of_not_lt h2, le_of_not_lt h⟩

/-- A single mouse-move handler invocation preserves the rotation
bound. -/
lemma onMouseMove_inv (winW winH cx cy : ℚ) (s : DState) (h : rotXInvB s = true) :
    rotXInvB (onMouseMove winW winH cx cy s) = true := by
  unfold onMouseMove
  split
  · exact h
  · rcases hs : s.pivot with _ | p
    · exact h
    · simp only [rotXInvB]
      exact decide_eq_true (clampRotX_mem _)

/-- Any sequence of mouse-move events preserves the rotation bound. -/
lemma processMoves_inv (winW winH : ℚ) (l : List (ℚ × ℚ)) :
    ∀ s : DState, rotXInvB s = true → rotXInvB (processMoves winW winH l s) = true := by
  induction l with
  | nil => exact fun s h => h
  | cons e t ih => exact fun s h => ih _ (onMouseMove_inv winW winH e.1 e.2 s h)

/-- Claim C5: while dragging with a loaded pivot, a mouse-move event
with client coordinates `(cx, cy)` applies
`rotation.y += delta.x * 2` and `rotation.x -= delta.y` (deltas of the
normalized coordinates) followed by the clamp of `rotation.x` to
`[-1, 1]`; and for every sequence of move events starting with
`rotation.x` in `[-1, 1]`, `rotation.x` stays in `[-1, 1]` after every
invocation. -/
theorem mousemove_rotx_clamped (winW winH cx cy : ℚ) (l : List (ℚ × ℚ)) (s : DState) (p : Pivot)
    (hd : s.isMouseDown = true) (hp : s.pivot = some p) (hinv : rotXInvB s = true) :
    onMouseMove winW winH cx cy s =
      { s with mouse := ⟨cx / winW * 2 - 1, -(cy / winH) * 2 + 1⟩,
               lastMouse := ⟨cx / winW * 2 - 1, -(cy / winH) * 2 + 1⟩,
               difference := ⟨cx / winW * 2 - 1 - s.lastMouse.x, -(cy / winH) * 2 + 1 - s.lastMouse.y⟩,
               pivot := some { p with
                 rotY := p.rotY + (cx / winW * 2 - 1 - s.lastMouse.x) * 2,
                 rotX := clampRotX (p.rotX - (-(cy / winH) * 2 + 1 - s.lastMouse.y)) } }
    ∧ rotXInvB (processMoves winW winH l s) = true := by
  constructor
  · unfold onMouseMove
    rw [hd, hp]
    rfl
  · exact processMoves_inv winW winH l s hinv

/-- Claim C5 witness: the theorem applied to a concrete dragging state
and a concrete event sequence with large deltas. -/
theorem mousemove_rotx_clamped_witness :
    rotXInvB (processMoves 200 100 [(0, 0), (5000, 7000), (3, 9)] dragState) = true :=
  (mousemove_rotx_clamped 200 100 0 0 [(0, 0), (5000, 7000), (3, 9)] dragState pivot0
    rfl rfl
    (by rw [rotXInvB_some dragState pivot0 rfl]
        exact decide_eq_true ⟨show (-1 : ℚ) ≤ 0 by norm_num, show (0 : ℚ) ≤ 1 by norm_num⟩)).2

/-- One scale-changing operation keeps the uniform scale strictly above
the minimum factor, provided a slider operation's value exceeds
`-90`. -/
lemma applyScaleOp_inv (s : DState) (op : ScaleOp) (hs : scaleAboveMinB s = true)
    (hop : sliderOpOK op = true) : scaleAboveMinB (applyScaleOp s op) = true := by
  cases op with
  | wheel d =>
    show scaleAboveMinB (onWheel d s) = true
    rcases hp : s.pivot with _ | p
    · rw [onWheel_none d s hp]
      exact hs
    · have hP : 1/10 < p.scale.x ∧ p.scale.x = p.scale.y ∧ p.scale.y = p.scale.z := by
        have h2 := hs
        rw [scaleAboveMinB_some s p hp] at h2
        exact of_decide_eq_true h2
      by_cases hg : p.scale.x + d / -1000 ≤ 1/10
      · rw [onWheel_some_le d s p hp hg]
        exact hs
      · rw [onWheel_some_gt d s p hp hg,
            scaleAboveMinB_some _ { p with
              scale := ⟨p.scale.x + d / -1000, p.scale.y + d / -1000, p.scale.z + d / -1000⟩ } rfl]
        exact decide_eq_true ⟨lt_of_not_le hg, by rw [hP.2.1], by rw [hP.2.2]⟩
  | slider v =>
    show scaleAboveMinB (scaleUpdate v s) = true
    rcases hp : s.pivot with _ | p
    · unfold scaleUpdate
      rw [hp]
      exact hs
    · have hv : (-90 : ℚ) < v := of_decide_eq_true hop
      rw [scaleUpdate_some v s p hp,
          scaleAboveMinB_some _ { p with
            scale := ⟨basicScale.x + v / 100, basicScale.y + v / 100, basicScale.z + v / 100⟩ } rfl]
      refine decide_eq_true ⟨?_, rfl, rfl⟩
      show (1 : ℚ)/10 < basicScale.x + v / 100
      show (1 : ℚ)/10 < 1 + v / 100
      linarith

/-- Any sequence of constrained scale-changing operations keeps the
uniform scale strictly above the minimum factor. -/
lemma applyScaleOps_inv (l : List ScaleOp) :
    ∀ s : DState, scaleAboveMinB s = true → (∀ op ∈ l, sliderOpOK op = true) →
      scaleAboveMinB (applyScaleOps s l) = true := by
  induction l with
  | nil => exact fun s hs _ => hs
  | cons op t ih =>
    intro s hs hl
    exact ih _ (applyScaleOp_inv s op hs (hl op (by simp))) (fun o ho => hl o (by simp [ho]))

/-- Claim C3 counterexample: from uniform scale `1`, a single slider
input event with value `-100` sets the scale to `0`, which is not
strictly above the minimum factor `0.1` (the slider handler has no
lower clamp). -/
theorem scale_above_min_cex :
    scaleAboveMinB loadedState = true
    ∧ (applyScaleOps loadedState [ScaleOp.slider (-100)]).pivot
        = some { pivot0 with scale := ⟨0, 0, 0⟩ }
    ∧ scaleAboveMinB (applyScaleOps loadedState [ScaleOp.slider (-100)]) = false := by
  have hstep : applyScaleOps loadedState [ScaleOp.slider (-100)]
      = scaleUpdate (-100) loadedState := rfl
  have hupd := scaleUpdate_some (-100) loadedState pivot0 rfl
  refine ⟨?_, ?_, ?_⟩
  · rw [scaleAboveMinB_some loadedState pivot0 rfl]
    exact decide_eq_true ⟨show (1 : ℚ)/10 < 1 by norm_num, rfl, rfl⟩
  · rw [hstep, hupd]
    show some _ = some _
    rw [Option.some.injEq, Pivot.mk.injEq]
    refine ⟨rfl, rfl, ?_, rfl⟩
    rw [Vec3.mk.injEq]
    refine ⟨?_, ?_, ?_⟩ <;> show basicScale.x + (-100 : ℚ) / 100 = 0 <;> norm_num [basicScale]
  · rw [hstep, hupd,
        scaleAboveMinB_some _ { pivot0 with
          scale := ⟨basicScale.x + (-100 : ℚ) / 100, basicScale.y + (-100 : ℚ) / 100,
                    basicScale.z + (-100 : ℚ) / 100⟩ } rfl]
    refine decide_eq_false fun hcon => ?_
    have h1 : (1 : ℚ)/10 < basicScale.x + (-100 : ℚ) / 100 := hcon.1
    rw [show basicScale.x = (1 : ℚ) from rfl] at h1
    norm_num at h1

/-- Claim C3 amended: in the desktop viewer, for every sequence of
scale-changing operations (wheel events and slider input events)
starting from uniform scale `1`, the pivot's uniform scale stays
strictly above the minimum factor `0.1` after every operation,
provided every slider input value exceeds `-90` (equivalently, maps to
a scale above `0.1`); wheel events alone are unrestricted. -/
theorem scale_above_min_amended (l : List ScaleOp) (s : DState) (p : Pivot)
    (hp : s.pivot = some p) (h1 : p.scale = ⟨1, 1, 1⟩)
    (hl : ∀ op ∈ l, sliderOpOK op = true) :
    scaleAboveMinB (applyScaleOps s l) = true := by
  apply applyScaleOps_inv l s ?_ hl
  rw [scaleAboveMinB_some s p hp, h1]
  exact decide_eq_true ⟨show (1 : ℚ)/10 < 1 by norm_num, rfl, rfl⟩

/-- Claim C3 amended witness: the amended theorem on a concrete
operation sequence from the loaded state. -/
theorem scale_above_min_amended_witness :
    scaleAboveMinB (applyScaleOps loadedState
      [ScaleOp.wheel 500, ScaleOp.slider 50, ScaleOp.wheel (-200)]) = true :=
  scale_above_min_amended [ScaleOp.wheel 500, ScaleOp.slider 50, ScaleOp.wheel (-200)]
    loadedState pivot0 rfl rfl (by decide)

/-- Claim C4: for every wheel event with a loaded pivot at uniform
scale `q`, the handler computes `value = deltaY / -1000`; if
`q + value ≤ 0.1` the state is left completely unchanged, otherwise
`value` is added to each of the three scale axes; hence a wheel event
never moves a scale that is above `0.1` to or below `0.1`. -/
theorem wheel_min_scale_guard (d : ℚ) (s : DState) (p : Pivot) (q : ℚ)
    (hp : s.pivot = some p) (hq : p.scale = ⟨q, q, q⟩) :
    (q + d / -1000 ≤ 1/10 → onWheel d s = s)
    ∧ (¬ q + d / -1000 ≤ 1/10 →
        onWheel d s = { s with pivot := some { p with
          scale := ⟨q + d / -1000, q + d / -1000, q + d / -1000⟩ } })
    ∧ (1/10 < q → scaleAboveMinB (onWheel d s) = true) := by
  have hx : p.scale.x = q := by rw [hq]
  have hy : p.scale.y = q := by rw [hq]
  have hz : p.scale.z = q := by rw [hq]
  refine ⟨fun h => ?_, fun h => ?_, fun h => ?_⟩
  · exact onWheel_some_le d s p hp (by rw [hx]; exact h)
  · rw [onWheel_some_gt d s p hp (by rw [hx]; exact h), hx, hy, hz]
  · by_cases hg : p.scale.x + d / -1000 ≤ 1/10
    · rw [onWheel_some_le d s p hp hg, scaleAboveMinB_some s p hp]
      exact decide_eq_true ⟨by rw [hx]; exact h, by rw [hx, hy], by rw [hy, hz]⟩
    · rw [onWheel_some_gt d s p hp hg,
          scaleAboveMinB_some _ { p with
            scale := ⟨p.scale.x + d / -1000, p.scale.y + d / -1000, p.scale.z + d / -1000⟩ } rfl]
      exact decide_eq_true ⟨lt_of_not_le hg, by rw [hx, hy], by rw [hy, hz]⟩

/-- Claim C4 witness: a wheel event of `deltaY = 1000` from uniform
scale `1` would land at scale `0 ≤ 0.1` and is rejected, leaving the
state unchanged. -/
theorem wheel_min_scale_guard_witness : onWheel 1000 loadedState = loadedState :=
  (wheel_min_scale_guard 1000 loadedState pivot0 1 rfl rfl).1
    (show (1 : ℚ) + 1000 / -1000 ≤ 1/10 by norm_num)

/-- Claim C6: for every loaded model, writing `(cx, cy, cz)` for the
center of the axis-aligned bounding box the load callback computes
(model at scale `k` and position zero), the callback sets the model's
position offset to exactly `(-cx, -cy, -cz)` — in the desktop viewer
(`k = 1`) and in the AR viewer (`k = 0.1`) — and the centering is a
round trip: re-running the centering computation on the
already-centered asset yields an offset of `(0, 0, 0)`. -/
theorem centering_negates_center_roundtrip (b : Box3) (k : ℚ) (s : DState) (t : ARState) :
    (modelLoadedDesktop b s).objModel = some (vneg (getCenter (setFromObject b 1 vzero)))
    ∧ (modelLoadedAR b t).objModel = some (vneg (getCenter (setFromObject b (1/10) vzero)))
    ∧ centerOffset b k (centerOffset b k vzero) = vzero := by
  refine ⟨rfl, rfl, ?_⟩
  unfold centerOffset setFromObject getCenter vneg vzero
  rw [Vec3.mk.injEq]
  refine ⟨by ring, by ring, by ring⟩

/-- All-failure load outcomes fold to the unchanged state plus the
accumulated console errors. -/
lemma foldl_failure (oc : Option (List Char) → LoadResult)
    (hf : ∀ u, (oc u).isFailure = true) :
    ∀ (l : List (Option (List Char))) (s0 : DState) (logs : List (List Char)),
      l.foldl (fun acc u => applyLoadResult acc (oc u)) (s0, logs)
        = (s0, logs ++ (l.map (fun u => (oc u).errMsg)).flatten) := by
  intro l
  induction l with
  | nil =>
    intro s0 logs
    simp
  | cons u t ih =>
    intro s0 logs
    have h := hf u
    cases hu : oc u with
    | success m =>
      rw [hu] at h
      exact absurd h (by simp [LoadResult.isFailure])
    | failure e =>
      have hstep : applyLoadResult (s0, logs) (oc u) = (s0, logs ++ [e]) := by
        rw [hu]
        rfl
      rw [List.foldl_cons, hstep, ih s0 (logs ++ [e]), List.map_cons, List.flatten_cons, hu]
      simp [LoadResult.errMsg]

/-- Claim C9: in the desktop viewer, if the query string contains no
`model` parameter, `GetURLParameter` fires no load and the state (and
console) are untouched, so the pivot handle stays undefined and no
node is added to the scene; and when every fired load invokes the
error callback, the state is likewise untouched and the only effect is
the console error log. -/
theorem no_model_param_or_load_failure_preload (search1 : List Char)
    (oc : Option (List Char) → LoadResult) (s : DState) :
    (paramOccurrences search1 modelParamName = [] →
      getURLParameterD modelParamName search1 oc s = (s, []))
    ∧ ((∀ u, (oc u).isFailure = true) →
      getURLParameterD modelParamName search1 oc s
        = (s, ((paramOccurrences search1 modelParamName).map (fun u => (oc u).errMsg)).flatten)) := by
  constructor
  · intro h
    unfold getURLParameterD
    rw [h]
    rfl
  · intro hf
    unfold getURLParameterD
    rw [foldl_failure oc hf (paramOccurrences search1 modelParamName) s []]
    simp

/-- Claim C9 witness: a query string without a `model` parameter leaves
the startup state untouched, and a failing load of `model=chair.glb`
leaves the state untouched with exactly the error log emitted. -/
theorem no_model_param_or_load_failure_preload_witness :
    getURLParameterD modelParamName ("foo=bar&x=1".toList) ocFail initState
      = (initState, [])
    ∧ getURLParameterD modelParamName ("model=chair.glb".toList) ocFail initState
      = (initState, [['e', 'r', 'r']]) := by
  constructor
  · exact (no_model_param_or_load_failure_preload ("foo=bar&x=1".toList) ocFail initState).1
      (by decide)
  · rw [(no_model_param_or_load_failure_preload ("model=chair.glb".toList) ocFail initState).2
      (fun u => rfl)]
    rfl

/-- Claim C1 counterexample: a session state with an object handle, a
recorded reticle pose and no spawn yet, in which a `select` event
nevertheless changes nothing (no placement ever happens), because the
`window.sunflower` guard the handler actually checks is falsy. -/
theorem select_places_exactly_once_cex :
    noSunflowerState.object.isSome = true
    ∧ noSunflowerState.reticlePlaced = true
    ∧ noSunflowerState.isObjectSpawned = false
    ∧ onSelect noSunflowerState = Except.ok noSunflowerState
    ∧ noSunflowerState.objectInScene = false :=
  ⟨rfl, rfl, rfl, rfl, rfl⟩

/-- Claim C1 amended: in the AR viewer, if additionally the
`window.sunflower` global is truthy, then a `select` event with an
object handle, a recorded reticle pose and no spawn yet moves the
object to the reticle's last recorded position, adds it to the scene,
removes the reticle from the scene and sets the spawned flag; and
every `select` event in a state with the spawned flag set is a no-op,
so exactly one placement occurs, at the position recorded on the first
placing event. -/
theorem select_places_exactly_once_amended (s : ARState) (o : ARObject)
    (hs : s.sunflower = true) (ho : s.object = some o)
    (hr : s.reticlePlaced = true) (hn : s.isObjectSpawned = false) :
    onSelect s = Except.ok { s with reticleInScene := false,
                                    object := some { o with position := s.reticlePos },
                                    objectInScene := true, isObjectSpawned := true }
    ∧ (∀ t : ARState, t.isObjectSpawned = true → onSelect t = Except.ok t) := by
  constructor
  · unfold onSelect
    rw [hs, hn, hr]
    simp only [Bool.false_or, Bool.not_true, if_true]
    have ho2 : ({ s with reticleInScene := false } : ARState).object = some o := ho
    rw [ho2]
    rfl
  · intro t ht
    unfold onSelect
    rw [ht]
    by_cases hsun : t.sunflower = true
    · rw [hsun]
      rfl
    · rw [Bool.not_eq_true] at hsun
      rw [hsun]
      rfl

/-- Claim C1 amended witness: the amended theorem applied to a ready
session state. -/
theorem select_places_exactly_once_amended_witness :
    onSelect readyState = Except.ok { readyState with
                                      reticleInScene := false,
                                      object := some { objDemo with position := readyState.reticlePos },
                                      objectInScene := true, isObjectSpawned := true } :=
  (select_places_exactly_once_amended readyState objDemo rfl rfl rfl rfl).1

/-- Claim C8: in the AR viewer, on every frame callback where the
device pose is absent, the frame is skipped entirely except for
re-arming the next frame's callback (and the framebuffer bind that
precedes the pose query): the whole viewer state — camera matrices,
reticle position and visibility, the stabilized flag and all the rest
— is left unchanged and render is not invoked. -/
theorem xrframe_absent_pose_skips_frame (s : ARState) (hits : List Vec3) :
    onXRFrame s { pose := none, hits := hits }
      = (s, { requestedNextFrame := true, boundFramebuffer := true, rendered := false }) :=
  rfl

/-- Claim C10: evaluation of the code at the failing input. In the AR
viewer, a `select` event dispatched while `this.object` is undefined
but `window.sunflower` is truthy, with a recorded reticle pose and no
spawn yet, first removes the reticle from the scene and then throws a
`TypeError` dereferencing `this.object.position` (the `Except.error`
payload is the state at the throw). -/
theorem select_without_object_faults :
    onSelect noObjectState = Except.error { noObjectState with reticleInScene := false } :=
  rfl

end Viewer
